import Mathlib

/-!
Verification of `linode_dynamic_dns.py` (a dynamic-DNS updater).

The script is embedded shallowly:

* `LinodeAPI.get_domains`, `get_domain_records`, `update_domain_record_target`
  and `create_domain_host_record` are modelled as pure functions of the HTTP
  response they receive (status code plus parsed JSON body).  The transport
  (`urllib.request.urlopen`) is a black box; the functions below describe what
  the Python methods do with a response the transport delivered.
* `get_ip` is modelled as a function of the discovery endpoint's outcome:
  either a connection failure (caught `OSError`/`URLError`) or a response
  body.  `ipaddress.ip_address` (Python standard library) is abstracted as a
  parameter `parseIp : String → Option IpAddr`; `none` models the
  `ValueError` the library raises on an unparseable string.  `ipaddress`
  address objects define no `__bool__`, so `if ip` is always true for a
  parsed address; only the version test remains.
* `update_dns` is modelled as a function from its environment (the provider's
  domain list, the per-fetch record list, the two discovery responses, the
  `DOMAIN` and `HOST` configuration strings) to the list of provider calls it
  issues, in order, together with its outcome: normal return, `sys.exit`, or
  an uncaught Python exception.  The provider's record state is taken to be
  the same on every `get_domain_records` fetch within the pass, and update /
  create requests are taken to succeed (status 200), which is the regime the
  reconciliation claims describe.
* The Python local variable `local_ip` is assigned only inside the
  `record['type'] == 'A' / 'AAAA'` branches, so it can be read unbound; it is
  modelled as `Option (Option IpAddr)`: `none` is "never assigned" (reading
  it raises `UnboundLocalError`), `some none` is "assigned `None`" (falsy, so
  `if local_ip` skips), `some (some a)` is "assigned address `a`".
-/

set_option linter.unusedVariables false

deriving instance DecidableEq for Except

/-- A parsed IP address as produced by `ipaddress.ip_address`: its version
(4 or 6) and its textual form.  Equality of the Python objects is equality of
these pairs. -/
structure IpAddr where
  version : Nat
  addr : String
deriving DecidableEq, Repr

/-- One element of the `data` array returned by the list-domains endpoint:
the fields `update_dns` reads (`d['id']`, `d['domain']`). -/
structure DomainObj where
  id : Nat
  domain : String
deriving DecidableEq, Repr

/-- One element of the `data` array returned by the list-records endpoint:
the fields `update_dns` reads (`record['id']`, `record['name']`,
`record['type']`, `record['target']`). -/
structure DomainRecord where
  id : Nat
  name : String
  rtype : String
  target : String
deriving DecidableEq, Repr

/-- The Python exceptions the script can raise on the paths modelled here. -/
inductive PyErr where
  | valueError
  | unboundLocal
  | keyError
  | httpException (status : Nat)
deriving DecidableEq, Repr

/-- One outgoing call made by a reconciliation pass: a provider API call
(list domains, list records, update a record, create a record) or an IP
discovery request. -/
inductive Call where
  | getDomains
  | discover (version : Nat)
  | getRecords (domainId : Nat)
  | update (domainId recordId : Nat) (target : IpAddr)
  | create (domainId : Nat) (host rtype : String) (target : IpAddr)
deriving DecidableEq, Repr

/-- How a reconciliation pass ends: normal return, `sys.exit(code)`, or an
uncaught exception. -/
inductive Outcome where
  | normal
  | exited (code : Nat)
  | raised (e : PyErr)
deriving DecidableEq, Repr

/-- Leading and trailing whitespace removal on a character list. -/
def stripChars (l : List Char) : List Char :=
  ((l.dropWhile Char.isWhitespace).reverse.dropWhile Char.isWhitespace).reverse

/-- Python's `str.strip()`: remove leading and trailing whitespace. -/
def pyStrip (s : String) : String := String.mk (stripChars s.data)

/-- Splitting a character list on a separator character, Python style:
`split` on an explicit separator yields one (possibly empty) piece per gap,
so the empty string splits to one empty piece. -/
def splitChars (sep : Char) : List Char → List (List Char)
  | [] => [[]]
  | c :: rest =>
    if c = sep then [] :: splitChars sep rest
    else
      match splitChars sep rest with
      | [] => [[c]]
      | piece :: pieces => (c :: piece) :: pieces

/-- Python's `host.split(",")`. -/
def pySplit (sep : Char) (s : String) : List String :=
  (splitChars sep s.data).map String.mk

/-- `LinodeAPI.get_domains`: `status, content = self.request('GET', 'domains');
yield from content['data']`.  The status is bound but never inspected; a body
without a `data` array raises `KeyError`. -/
def get_domains (status : Nat) (content : Option (List DomainObj)) :
    Except PyErr (List DomainObj) :=
  match content with
  | none => .error .keyError
  | some d => .ok d

/-- `LinodeAPI.get_domain_records`: same shape as `get_domains`; the status is
bound but never inspected. -/
def get_domain_records (status : Nat) (content : Option (List DomainRecord)) :
    Except PyErr (List DomainRecord) :=
  match content with
  | none => .error .keyError
  | some d => .ok d

/-- `LinodeAPI.update_domain_record_target`: raises
`http.client.HTTPException` when the response status is not 200. -/
def update_domain_record_target (status : Nat) : Except PyErr Unit :=
  if status ≠ 200 then .error (.httpException status) else .ok ()

/-- `LinodeAPI.create_domain_host_record`: raises
`http.client.HTTPException` when the response status is not 200. -/
def create_domain_host_record (status : Nat) : Except PyErr Unit :=
  if status ≠ 200 then .error (.httpException status) else .ok ()

/-- `get_ip(version)`.  `resp` is the discovery endpoint's outcome:
`.error ()` is a connection failure (`OSError` / `URLError`, caught → `None`);
`.ok body` is a delivered body.  The body is stripped and parsed; a parse
failure is the uncaught `ValueError` from `ipaddress.ip_address`; a parsed
address of the wrong version yields `None`. -/
def get_ip (parseIp : String → Option IpAddr) (version : Nat)
    (resp : Except Unit String) : Except PyErr (Option IpAddr) :=
  match resp with
  | .error _ => .ok none
  | .ok body =>
    match parseIp (pyStrip body) with
    | none => .error .valueError
    | some ip =>
      if ip.version = version then .ok (some ip) else .ok none

/-- The record-matching test on line 127 of the script:
`record['name'] == h.strip() or (record['name'] == '' and h.strip() == '@')`. -/
def matchesHost (r : DomainRecord) (h : String) : Bool :=
  r.name == pyStrip h || (r.name == "" && pyStrip h == "@")

/-- The inner `for record in api.get_domain_records(domain_id)` loop breaks at
the first matching record, so only the first match is ever acted on. -/
def findMatch (records : List DomainRecord) (h : String) : Option DomainRecord :=
  records.find? (fun r => matchesHost r h)

/-- The domain-resolution loop: the first listed domain whose `domain` field
equals the configured name, by exact string equality. -/
def findDomainId (domains : List DomainObj) (domain : String) : Option Nat :=
  (domains.find? (fun d => d.domain == domain)).map (fun d => d.id)

/-- The state of the Python local variable `local_ip`:
unbound / bound to `None` / bound to an address. -/
abbrev LocalVar := Option (Option IpAddr)

/-- Lines 131–135: `local_ip` is reassigned only for record types `A` and
`AAAA`; any other type leaves the variable as it was. -/
def assignLocal (local4 local6 : Option IpAddr) (lv : LocalVar)
    (rtype : String) : LocalVar :=
  if rtype == "A" then some local4
  else if rtype == "AAAA" then some local6
  else lv

/-- Lines 131–148, for the first record matching the current host: assign
`local_ip` by record type, parse the record target (uncaught `ValueError` if
it is not an address), then `if local_ip and local_ip != record_ip` issue an
update (reading `local_ip` unbound raises `UnboundLocalError`).  Returns the
calls issued and either the variable state after the iteration or the raised
exception.  (In the source the assignment precedes the parse; neither step
can affect the other, and the parse failure is raised before `local_ip` is
read.) -/
def processRecord (parseIp : String → Option IpAddr)
    (local4 local6 : Option IpAddr) (lv : LocalVar) (domainId : Nat)
    (r : DomainRecord) : List Call × Except PyErr LocalVar :=
  match parseIp r.target with
  | none => ([], .error .valueError)
  | some rip =>
    match assignLocal local4 local6 lv r.rtype with
    | none => ([], .error .unboundLocal)
    | some none => ([], .ok (some none))
    | some (some lip) =>
      if lip ≠ rip then ([Call.update domainId r.id lip], .ok (some (some lip)))
      else ([], .ok (some (some lip)))

/-- One iteration of the outer `for h in hosts` loop: fetch the domain's
records, scan for the first match; if found, handle it (`processRecord`);
if not found and the stripped token is neither empty nor `"@"`, create an A
record when an IPv4 address was discovered and an AAAA record when an IPv6
address was discovered — both with the raw (unstripped) token as name. -/
def processHost (parseIp : String → Option IpAddr)
    (records : List DomainRecord) (local4 local6 : Option IpAddr)
    (lv : LocalVar) (domainId : Nat) (h : String) :
    List Call × Except PyErr LocalVar :=
  match findMatch records h with
  | some r =>
    (Call.getRecords domainId :: (processRecord parseIp local4 local6 lv domainId r).1,
     (processRecord parseIp local4 local6 lv domainId r).2)
  | none =>
    if pyStrip h != "" && pyStrip h != "@" then
      (Call.getRecords domainId ::
        ((match local4 with
          | some a => [Call.create domainId h "A" a]
          | none => []) ++
         (match local6 with
          | some a => [Call.create domainId h "AAAA" a]
          | none => [])),
       .ok lv)
    else
      ([Call.getRecords domainId], .ok lv)

/-- The outer loop over all host tokens, threading the `local_ip` variable
(which survives from one iteration to the next); an exception aborts the
remaining iterations. -/
def processHosts (parseIp : String → Option IpAddr)
    (records : List DomainRecord) (local4 local6 : Option IpAddr)
    (domainId : Nat) : LocalVar → List String → List Call × Except PyErr Unit
  | _, [] => ([], .ok ())
  | lv, h :: rest =>
    match (processHost parseIp records local4 local6 lv domainId h).2 with
    | .error e => ((processHost parseIp records local4 local6 lv domainId h).1, .error e)
    | .ok lv2 =>
      ((processHost parseIp records local4 local6 lv domainId h).1 ++
         (processHosts parseIp records local4 local6 domainId lv2 rest).1,
       (processHosts parseIp records local4 local6 domainId lv2 rest).2)

/-- How the loop's final `Except` state reads as a pass outcome: an uncaught
exception aborts the pass, otherwise it returns normally. -/
def outcomeOf : Except PyErr Unit → Outcome
  | .ok _ => Outcome.normal
  | .error e => Outcome.raised e

/-- `update_dns(api, domain, host)`: resolve the domain (exit 1 if absent),
split `host` on commas, discover IPv4 then IPv6, then run the per-host loop.
Returns the calls issued, in order, and the outcome. -/
def update_dns (parseIp : String → Option IpAddr) (domains : List DomainObj)
    (records : List DomainRecord) (resp4 resp6 : Except Unit String)
    (domain host : String) : List Call × Outcome :=
  match findDomainId domains domain with
  | none => ([Call.getDomains], Outcome.exited 1)
  | some domainId =>
    match get_ip parseIp 4 resp4 with
    | .error e => ([Call.getDomains, Call.discover 4], Outcome.raised e)
    | .ok local4 =>
      match get_ip parseIp 6 resp6 with
      | .error e =>
        ([Call.getDomains, Call.discover 4, Call.discover 6], Outcome.raised e)
      | .ok local6 =>
        (Call.getDomains :: Call.discover 4 :: Call.discover 6 ::
           (processHosts parseIp records local4 local6 domainId none
             (pySplit ',' host)).1,
         outcomeOf (processHosts parseIp records local4 local6 domainId none
             (pySplit ',' host)).2)

/-- Is this call a record update? -/
def Call.isUpdate : Call → Bool
  | .update _ _ _ => true
  | _ => false

/-- Is this call a record creation? -/
def Call.isCreate : Call → Bool
  | .create _ _ _ _ => true
  | _ => false

/-- Is this call a record creation whose name field is `h`? -/
def Call.isCreateFor (h : String) : Call → Bool
  | .create _ h2 _ _ => h2 == h
  | _ => false

/-- Is this call an AAAA-record creation? -/
def Call.isAAAACreate : Call → Bool
  | .create _ _ t _ => t == "AAAA"
  | _ => false

/-- Is this call an update whose target is an IPv6 address? -/
def Call.isV6Update : Call → Bool
  | .update _ _ a => a.version == 6
  | _ => false

/-- A small concrete stand-in for `ipaddress.ip_address`, used to evaluate the
model on concrete inputs: it parses the handful of address literals the
concrete scenarios use and rejects everything else. -/
def sampleParse : String → Option IpAddr
  | "1.1.1.1" => some ⟨4, "1.1.1.1"⟩
  | "2.2.2.2" => some ⟨4, "2.2.2.2"⟩
  | "1.2.3.4" => some ⟨4, "1.2.3.4"⟩
  | "::1" => some ⟨6, "::1"⟩
  | "::2" => some ⟨6, "::2"⟩
  | _ => none

example : pyStrip " www " = "www" := by decide

example : pySplit ',' "@, www," = ["@", " www", ""] := by decide

/-! ### Helper lemmas -/

theorem get_ip_ok_version (parseIp : String → Option IpAddr) (version : Nat)
    (resp : Except Unit String) (a : IpAddr)
    (h : get_ip parseIp version resp = Except.ok (some a)) :
    a.version = version := by
  cases resp with
  | error u => simp [get_ip] at h
  | ok body =>
    cases hp : parseIp (pyStrip body) with
    | none => simp [get_ip, hp] at h
    | some ip =>
      by_cases hv : ip.version = version
      · simp [get_ip, hp, hv] at h
        subst h
        exact hv
      · simp [get_ip, hp, hv] at h

theorem outcomeOf_normal (res : Except PyErr Unit)
    (h : outcomeOf res = Outcome.normal) : res = Except.ok () := by
  cases res with
  | ok u => rfl
  | error e => simp [outcomeOf] at h

theorem assignLocal_cases (local4 local6 : Option IpAddr) (lv : LocalVar)
    (rtype : String) :
    assignLocal local4 local6 lv rtype = some local4 ∨
    assignLocal local4 local6 lv rtype = some local6 ∨
    assignLocal local4 local6 lv rtype = lv := by
  unfold assignLocal
  split
  · exact Or.inl rfl
  · split
    · exact Or.inr (Or.inl rfl)
    · exact Or.inr (Or.inr rfl)

theorem isCreateFor_false_of_isUpdate (h : String) (c : Call)
    (hc : c.isUpdate = true) : Call.isCreateFor h c = false := by
  cases c <;> simp [Call.isUpdate, Call.isCreateFor] at *

theorem processRecord_all_update (parseIp : String → Option IpAddr)
    (local4 local6 : Option IpAddr) (lv : LocalVar) (domainId : Nat)
    (r : DomainRecord) :
    ∀ c ∈ (processRecord parseIp local4 local6 lv domainId r).1,
      c.isUpdate = true := by
  unfold processRecord
  cases parseIp r.target with
  | none => simp
  | some rip =>
    cases assignLocal local4 local6 lv r.rtype with
    | none => simp
    | some o =>
      cases o with
      | none => simp
      | some lip =>
        by_cases hd : lip ≠ rip
        · simp [hd, Call.isUpdate]
        · simp [hd]

/-! ### C2: error behavior of `get_ip` -/

/-- C2 (counterexample): the claim says `get_ip` never raises, but a
delivered response whose body does not parse as an IP address (here: the
empty body) raises the `ValueError` from `ipaddress.ip_address`, which is
outside the `try` block. -/
theorem c2_counterexample :
    get_ip sampleParse 4 (Except.ok "") = Except.error PyErr.valueError := by
  decide

/-- C2 (amended): a connection failure yields `None`, and a body that parses
to an address of the wrong version yields `None`; but a body that does not
parse as an IP address raises a `ValueError` to the caller. -/
theorem c2_discovery_behavior (parseIp : String → Option IpAddr)
    (version : Nat) :
    (∀ u : Unit, get_ip parseIp version (Except.error u) = Except.ok none) ∧
    (∀ (body : String) (ip : IpAddr), parseIp (pyStrip body) = some ip →
      ip.version ≠ version →
      get_ip parseIp version (Except.ok body) = Except.ok none) ∧
    (∀ body : String, parseIp (pyStrip body) = none →
      get_ip parseIp version (Except.ok body) = Except.error PyErr.valueError) := by
  refine ⟨fun u => rfl, ?_, ?_⟩
  · intro body ip hp hv
    simp [get_ip, hp, hv]
  · intro body hp
    simp [get_ip, hp]

/-- C2 witness: the three behaviors at concrete inputs. -/
theorem c2_discovery_behavior_witness :
    get_ip sampleParse 4 (Except.error ()) = Except.ok none ∧
    get_ip sampleParse 4 (Except.ok "::1") = Except.ok none ∧
    get_ip sampleParse 4 (Except.ok "nonsense") = Except.error PyErr.valueError :=
  ⟨(c2_discovery_behavior sampleParse 4).1 (),
   (c2_discovery_behavior sampleParse 4).2.1 "::1" ⟨6, "::1"⟩ (by decide)
     (by decide),
   (c2_discovery_behavior sampleParse 4).2.2 "nonsense" (by decide)⟩

/-! ### C6: status handling of the client's calls -/

/-- C6 (counterexample): the claim says every client call treats a non-200
status as a hard failure, but `get_domains` never inspects the status: a 201
response with a well-formed body returns the domain list normally. -/
theorem c6_counterexample :
    (201 : Nat) ≠ 200 ∧
    get_domains 201 (some [⟨1, "example.com"⟩]) =
      Except.ok [⟨1, "example.com"⟩] := by
  constructor
  · decide
  · rfl

/-- C6 (amended): only `update_domain_record_target` and
`create_domain_host_record` raise on a non-200 status; the two list calls
never inspect the status — their result does not depend on it at all. -/
theorem c6_status_handling :
    (∀ status : Nat, status ≠ 200 →
      update_domain_record_target status =
        Except.error (PyErr.httpException status)) ∧
    (∀ status : Nat, status ≠ 200 →
      create_domain_host_record status =
        Except.error (PyErr.httpException status)) ∧
    (∀ (s1 s2 : Nat) (content : Option (List DomainObj)),
      get_domains s1 content = get_domains s2 content) ∧
    (∀ (s1 s2 : Nat) (content : Option (List DomainRecord)),
      get_domain_records s1 content = get_domain_records s2 content) := by
  refine ⟨?_, ?_, fun s1 s2 c => rfl, fun s1 s2 c => rfl⟩
  · intro status hs
    simp [update_domain_record_target, hs]
  · intro status hs
    simp [create_domain_host_record, hs]

/-- C6 witness: the four behaviors at concrete statuses. -/
theorem c6_status_handling_witness :
    update_domain_record_target 500 = Except.error (PyErr.httpException 500) ∧
    create_domain_host_record 404 = Except.error (PyErr.httpException 404) ∧
    get_domains 299 (some []) = get_domains 200 (some []) ∧
    get_domain_records 204 none = get_domain_records 200 none :=
  ⟨c6_status_handling.1 500 (by decide), c6_status_handling.2.1 404 (by decide),
   c6_status_handling.2.2.1 299 200 (some []),
   c6_status_handling.2.2.2 204 200 none⟩

/-! ### C7: missing domain is a fatal configuration error -/

/-- C7: when no listed domain equals the configured name, the pass exits with
status 1 having made only the domain-listing call — no record listing, no
update, no create, no IP discovery. -/
theorem c7_domain_not_found (parseIp : String → Option IpAddr)
    (domains : List DomainObj) (records : List DomainRecord)
    (resp4 resp6 : Except Unit String) (domain host : String)
    (hnd : ∀ d ∈ domains, d.domain ≠ domain) :
    update_dns parseIp domains records resp4 resp6 domain host =
      ([Call.getDomains], Outcome.exited 1) := by
  have hfd : findDomainId domains domain = none := by
    unfold findDomainId
    rw [List.find?_eq_none.mpr]
    · rfl
    · intro d hd
      simp [hnd d hd]
  unfold update_dns
  rw [hfd]

/-- C7 witness: a provider with only `example.com` and configured domain
`missing.com`. -/
theorem c7_domain_not_found_witness :
    update_dns sampleParse [⟨1, "example.com"⟩] [] (Except.error ())
      (Except.error ()) "missing.com" "www" =
      ([Call.getDomains], Outcome.exited 1) :=
  c7_domain_not_found sampleParse [⟨1, "example.com"⟩] [] (Except.error ())
    (Except.error ()) "missing.com" "www" (by decide)

/-! ### C8: the record-matching rule -/

/-- C8: a record matches a host token exactly when its name equals the
stripped token, or its name is empty and the stripped token is `"@"`; the
comparison is case-sensitive and does not strip the record name. -/
theorem c8_matching_rule :
    (∀ (r : DomainRecord) (h : String),
      matchesHost r h = true ↔
        (r.name = pyStrip h ∨ (r.name = "" ∧ pyStrip h = "@"))) ∧
    matchesHost ⟨0, "", "A", "1.1.1.1"⟩ "@" = true ∧
    matchesHost ⟨0, "WWW", "A", "1.1.1.1"⟩ "www" = false ∧
    matchesHost ⟨0, " www", "A", "1.1.1.1"⟩ "www" = false := by
  refine ⟨?_, by decide, by decide, by decide⟩
  intro r h
  simp [matchesHost]

/-! ### C1: a first matching record of another type is not skipped -/

/-- C1 (counterexample): the claim says a first matching record whose type is
neither A nor AAAA is ignored and the pass continues normally, but matching an
MX record as the first match of the pass reads `local_ip` before any
assignment: the pass aborts with `UnboundLocalError` instead of continuing. -/
theorem c1_counterexample :
    update_dns sampleParse [⟨1, "example.com"⟩]
      [⟨10, "www", "MX", "1.2.3.4"⟩] (Except.error ()) (Except.error ())
      "example.com" "www" =
    ([Call.getDomains, Call.discover 4, Call.discover 6, Call.getRecords 1],
     Outcome.raised PyErr.unboundLocal) := by decide

/-- Helper for C1, never-assigned regime: when the *first* host token's first
matching record has a type that is neither A nor AAAA (and a parseable
target), `local_ip` has never been assigned, so the pass aborts with
`UnboundLocalError` right after the record listing, and in particular issues
no update for that record. -/
theorem c1_unbound_local (parseIp : String → Option IpAddr)
    (domains : List DomainObj) (records : List DomainRecord)
    (resp4 resp6 : Except Unit String) (domain host h : String)
    (rest : List String) (domainId : Nat) (local4 local6 : Option IpAddr)
    (r : DomainRecord) (rip : IpAddr)
    (hdid : findDomainId domains domain = some domainId)
    (h4 : get_ip parseIp 4 resp4 = Except.ok local4)
    (h6 : get_ip parseIp 6 resp6 = Except.ok local6)
    (hsplit : pySplit ',' host = h :: rest)
    (hfm : findMatch records h = some r)
    (hA : r.rtype ≠ "A") (hAAAA : r.rtype ≠ "AAAA")
    (hparse : parseIp r.target = some rip) :
    update_dns parseIp domains records resp4 resp6 domain host =
      ([Call.getDomains, Call.discover 4, Call.discover 6,
        Call.getRecords domainId],
       Outcome.raised PyErr.unboundLocal) := by
  have hal : assignLocal local4 local6 none r.rtype = (none : LocalVar) := by
    simp [assignLocal, hA, hAAAA]
  have hpr : processRecord parseIp local4 local6 none domainId r =
      ([], Except.error PyErr.unboundLocal) := by
    simp [processRecord, hparse, hal]
  have hph : processHost parseIp records local4 local6 none domainId h =
      ([Call.getRecords domainId], Except.error PyErr.unboundLocal) := by
    simp [processHost, hfm, hpr]
  simp [update_dns, hdid, h4, h6, hsplit, processHosts, hph, outcomeOf]

/-! ### C10: at most one update per host token -/

theorem processRecord_updates_le_one (parseIp : String → Option IpAddr)
    (local4 local6 : Option IpAddr) (lv : LocalVar) (domainId : Nat)
    (r : DomainRecord) :
    ((processRecord parseIp local4 local6 lv domainId r).1.countP
      (fun c => c.isUpdate)) ≤ 1 := by
  unfold processRecord
  cases parseIp r.target with
  | none => simp
  | some rip =>
    cases assignLocal local4 local6 lv r.rtype with
    | none => simp
    | some o =>
      cases o with
      | none => simp
      | some lip =>
        by_cases hd : lip ≠ rip <;>
          simp [hd, List.countP_cons, Call.isUpdate]

theorem processHost_updates_le_one (parseIp : String → Option IpAddr)
    (records : List DomainRecord) (local4 local6 : Option IpAddr)
    (lv : LocalVar) (domainId : Nat) (h : String) :
    ((processHost parseIp records local4 local6 lv domainId h).1.countP
      (fun c => c.isUpdate)) ≤ 1 := by
  cases hfm : findMatch records h with
  | some r =>
    simp only [processHost, hfm, List.countP_cons, Call.isUpdate]
    simpa using processRecord_updates_le_one parseIp local4 local6 lv domainId r
  | none =>
    simp only [processHost, hfm]
    split
    · cases local4 <;> cases local6 <;>
        simp [Call.isUpdate, List.countP_cons, List.countP_append]
    · simp [Call.isUpdate, List.countP_cons]

theorem processHosts_updates_le (parseIp : String → Option IpAddr)
    (records : List DomainRecord) (local4 local6 : Option IpAddr)
    (domainId : Nat) :
    ∀ (hosts : List String) (lv : LocalVar),
      ((processHosts parseIp records local4 local6 domainId lv hosts).1.countP
        (fun c => c.isUpdate)) ≤ hosts.length := by
  intro hosts
  induction hosts with
  | nil => intro lv; simp [processHosts]
  | cons h rest ih =>
    intro lv
    unfold processHosts
    cases hph : (processHost parseIp records local4 local6 lv domainId h).2 with
    | error e =>
      simp only [List.length_cons]
      calc ((processHost parseIp records local4 local6 lv domainId h).1.countP
              (fun c => c.isUpdate)) ≤ 1 :=
        processHost_updates_le_one parseIp records local4 local6 lv domainId h
        _ ≤ rest.length + 1 := by omega
    | ok lv2 =>
      simp only [List.length_cons, List.countP_append]
      have h1 := processHost_updates_le_one parseIp records local4 local6 lv domainId h
      have h2 := ih lv2
      omega

/-- C10: the inner record scan breaks at the first matching record, so each
host-token iteration issues at most one update call; over a whole pass the
number of update calls is at most the number of host tokens, whatever the
record list (including hosts matched by both an A and an AAAA record). -/
theorem c10_at_most_one_update (parseIp : String → Option IpAddr)
    (domains : List DomainObj) (records : List DomainRecord)
    (resp4 resp6 : Except Unit String) (domain host : String) :
    ((update_dns parseIp domains records resp4 resp6 domain host).1.countP
      (fun c => c.isUpdate)) ≤ (pySplit ',' host).length := by
  unfold update_dns
  cases findDomainId domains domain with
  | none => simp [Call.isUpdate]
  | some domainId =>
    cases get_ip parseIp 4 resp4 with
    | error e => simp [Call.isUpdate]
    | ok local4 =>
      cases get_ip parseIp 6 resp6 with
      | error e => simp [Call.isUpdate]
      | ok local6 =>
        simp only [List.countP_cons, Call.isUpdate]
        simpa using processHosts_updates_le parseIp records local4 local6
          domainId (pySplit ',' host) none

/-! ### C5: no IPv6 activity when IPv6 discovery yields no address -/

theorem processRecord_c5 (parseIp : String → Option IpAddr)
    (local4 : Option IpAddr) (lv : LocalVar) (domainId : Nat)
    (r : DomainRecord)
    (hv4 : ∀ a, local4 = some a → a.version = 4)
    (hinv : ∀ a, lv = some (some a) → local4 = some a) :
    (∀ c ∈ (processRecord parseIp local4 none lv domainId r).1,
        Call.isAAAACreate c = false ∧ Call.isV6Update c = false) ∧
    (∀ a, (processRecord parseIp local4 none lv domainId r).2 =
        Except.ok (some (some a)) → local4 = some a) := by
  cases hp : parseIp r.target with
  | none => simp [processRecord, hp]
  | some rip =>
    cases hal : assignLocal local4 none lv r.rtype with
    | none => simp [processRecord, hp, hal]
    | some o =>
      have ho : ∀ a, o = some a → local4 = some a := by
        intro a ha
        have hcases := assignLocal_cases local4 none lv r.rtype
        rw [hal] at hcases
        rcases hcases with hc | hc | hc
        · cases hc
          exact ha ▸ rfl
        · cases hc
          cases ha
        · exact hinv a (by rw [← hc, ha])
      cases o with
      | none =>
        simp only [processRecord, hp, hal]
        constructor
        · intro c hc
          simp at hc
        · intro a ha
          simp at ha
      | some lip =>
        have hl4 : local4 = some lip := ho lip rfl
        have hver : lip.version = 4 := hv4 lip hl4
        by_cases hd : lip ≠ rip
        · simp only [processRecord, hp, hal, if_pos hd]
          constructor
          · intro c hc
            simp at hc
            subst hc
            simp [Call.isAAAACreate, Call.isV6Update, hver]
          · intro a ha
            simp at ha
            exact ha ▸ hl4
        · simp only [processRecord, hp, hal, if_neg hd]
          constructor
          · intro c hc
            simp at hc
          · intro a ha
            simp at ha
            exact ha ▸ hl4

theorem processHost_c5 (parseIp : String → Option IpAddr)
    (records : List DomainRecord) (local4 : Option IpAddr) (lv : LocalVar)
    (domainId : Nat) (h : String)
    (hv4 : ∀ a, local4 = some a → a.version = 4)
    (hinv : ∀ a, lv = some (some a) → local4 = some a) :
    (∀ c ∈ (processHost parseIp records local4 none lv domainId h).1,
        Call.isAAAACreate c = false ∧ Call.isV6Update c = false) ∧
    (∀ a, (processHost parseIp records local4 none lv domainId h).2 =
        Except.ok (some (some a)) → local4 = some a) := by
  cases hfm : findMatch records h with
  | some r =>
    have hrec := processRecord_c5 parseIp local4 lv domainId r hv4 hinv
    simp only [processHost, hfm]
    constructor
    · intro c hc
      simp at hc
      rcases hc with hc | hc
      · subst hc
        exact ⟨rfl, rfl⟩
      · exact hrec.1 c hc
    · exact hrec.2
  | none =>
    simp only [processHost, hfm]
    split
    · constructor
      · intro c hc
        cases local4 with
        | none =>
          simp at hc
          subst hc
          exact ⟨rfl, rfl⟩
        | some a4 =>
          simp at hc
          rcases hc with hc | hc <;> subst hc <;>
            simp [Call.isAAAACreate, Call.isV6Update]
      · intro a ha
        simp at ha
        exact hinv a ha
    · constructor
      · intro c hc
        simp at hc
        subst hc
        exact ⟨rfl, rfl⟩
      · intro a ha
        simp at ha
        exact hinv a ha

theorem processHosts_c5 (parseIp : String → Option IpAddr)
    (records : List DomainRecord) (local4 : Option IpAddr) (domainId : Nat)
    (hv4 : ∀ a, local4 = some a → a.version = 4) :
    ∀ (hosts : List String) (lv : LocalVar),
      (∀ a, lv = some (some a) → local4 = some a) →
      ∀ c ∈ (processHosts parseIp records local4 none domainId lv hosts).1,
        Call.isAAAACreate c = false ∧ Call.isV6Update c = false := by
  intro hosts
  induction hosts with
  | nil =>
    intro lv hinv c hc
    simp [processHosts] at hc
  | cons h rest ih =>
    intro lv hinv c hc
    unfold processHosts at hc
    cases hph : (processHost parseIp records local4 none lv domainId h).2 with
    | error e =>
      rw [hph] at hc
      simp at hc
      exact (processHost_c5 parseIp records local4 lv domainId h hv4 hinv).1 c hc
    | ok lv2 =>
      rw [hph] at hc
      simp at hc
      rcases hc with hc | hc
      · exact (processHost_c5 parseIp records local4 lv domainId h hv4 hinv).1 c hc
      · have hinv2 : ∀ a, lv2 = some (some a) → local4 = some a := by
          intro a ha
          exact (processHost_c5 parseIp records local4 lv domainId h hv4 hinv).2
            a (by rw [hph, ha])
        exact ih lv2 hinv2 c hc

/-- C5: if IPv6 discovery yields no address, a pass issues no AAAA create
call and no update call whose target is an IPv6 address, whatever the IPv4
outcome and however the pass ends. -/
theorem c5_no_ipv6_calls (parseIp : String → Option IpAddr)
    (domains : List DomainObj) (records : List DomainRecord)
    (resp4 resp6 : Except Unit String) (domain host : String)
    (h6 : get_ip parseIp 6 resp6 = Except.ok none) :
    ∀ c ∈ (update_dns parseIp domains records resp4 resp6 domain host).1,
      Call.isAAAACreate c = false ∧ Call.isV6Update c = false := by
  intro c hc
  unfold update_dns at hc
  cases hfd : findDomainId domains domain with
  | none =>
    rw [hfd] at hc
    simp at hc
    subst hc
    exact ⟨rfl, rfl⟩
  | some domainId =>
    rw [hfd] at hc
    cases hg4 : get_ip parseIp 4 resp4 with
    | error e =>
      rw [hg4] at hc
      simp at hc
      rcases hc with hc | hc <;> subst hc <;> exact ⟨rfl, rfl⟩
    | ok local4 =>
      rw [hg4, h6] at hc
      simp at hc
      rcases hc with hc | hc | hc | hc
      · subst hc; exact ⟨rfl, rfl⟩
      · subst hc; exact ⟨rfl, rfl⟩
      · subst hc; exact ⟨rfl, rfl⟩
      · have hv4 : ∀ a, local4 = some a → a.version = 4 := fun a ha =>
          get_ip_ok_version parseIp 4 resp4 a (ha ▸ hg4)
        exact processHosts_c5 parseIp records local4 domainId hv4
          (pySplit ',' host) none (by intro a ha; cases ha) c hc

/-- C5 witness: IPv6 absent, IPv4 present, one host updated and one created —
the trace holds no AAAA create and no IPv6-target update. -/
theorem c5_no_ipv6_calls_witness :
    get_ip sampleParse 6 (Except.error ()) = Except.ok none ∧
    ((update_dns sampleParse [⟨1, "example.com"⟩]
        [⟨10, "", "A", "1.1.1.1"⟩] (Except.ok "2.2.2.2") (Except.error ())
        "example.com" "@,www").1.all
      (fun c => !Call.isAAAACreate c && !Call.isV6Update c)) = true := by
  refine ⟨by decide, ?_⟩
  rw [List.all_eq_true]
  intro c hc
  have hres := c5_no_ipv6_calls sampleParse [⟨1, "example.com"⟩]
    [⟨10, "", "A", "1.1.1.1"⟩] (Except.ok "2.2.2.2") (Except.error ())
    "example.com" "@,www" (by decide) c hc
  simp [hres.1, hres.2]

/-! ### Shared create-call lemmas for C3 and C4 -/

theorem processRecord_no_create (parseIp : String → Option IpAddr)
    (local4 local6 : Option IpAddr) (lv : LocalVar) (domainId : Nat)
    (r : DomainRecord) (hh : String) :
    ∀ c ∈ (processRecord parseIp local4 local6 lv domainId r).1,
      Call.isCreateFor hh c = false :=
  fun c hc => isCreateFor_false_of_isUpdate hh c
    (processRecord_all_update parseIp local4 local6 lv domainId r c hc)

theorem processHost_no_create_for (parseIp : String → Option IpAddr)
    (records : List DomainRecord) (local4 local6 : Option IpAddr)
    (domainId : Nat) (h h2 : String) (lv : LocalVar)
    (hcase : h2 ≠ h ∨ (findMatch records h2).isSome = true) :
    ∀ c ∈ (processHost parseIp records local4 local6 lv domainId h2).1,
      Call.isCreateFor h c = false := by
  intro c hc
  cases hfm2 : findMatch records h2 with
  | some r2 =>
    simp only [processHost, hfm2] at hc
    simp at hc
    rcases hc with hc | hc
    · subst hc
      rfl
    · exact processRecord_no_create parseIp local4 local6 lv domainId r2 h c hc
  | none =>
    have hne : h2 ≠ h := by
      rcases hcase with hne | hs
      · exact hne
      · rw [hfm2] at hs
        simp at hs
    simp only [processHost, hfm2] at hc
    split at hc
    · simp at hc
      rcases hc with hc | hc
      · subst hc
        rfl
      · cases local4 with
        | none =>
          cases local6 with
          | none => simp at hc
          | some a6 =>
            simp at hc
            subst hc
            simp [Call.isCreateFor, hne]
        | some a4 =>
          cases local6 with
          | none =>
            simp at hc
            subst hc
            simp [Call.isCreateFor, hne]
          | some a6 =>
            simp at hc
            rcases hc with hc | hc <;> subst hc <;>
              simp [Call.isCreateFor, hne]
    · simp at hc
      subst hc
      rfl

theorem processHosts_no_create_of (parseIp : String → Option IpAddr)
    (records : List DomainRecord) (local4 local6 : Option IpAddr)
    (domainId : Nat) (h : String) :
    ∀ (hosts : List String),
      (∀ h2 ∈ hosts, h2 ≠ h ∨ (findMatch records h2).isSome = true) →
      ∀ (lv : LocalVar) (c : Call),
        c ∈ (processHosts parseIp records local4 local6 domainId lv hosts).1 →
        Call.isCreateFor h c = false := by
  intro hosts
  induction hosts with
  | nil =>
    intro hall lv c hc
    simp [processHosts] at hc
  | cons h2 rest ih =>
    intro hall lv c hc
    unfold processHosts at hc
    cases hph : (processHost parseIp records local4 local6 lv domainId h2).2 with
    | error e =>
      rw [hph] at hc
      simp at hc
      exact processHost_no_create_for parseIp records local4 local6 domainId
        h h2 lv (hall h2 (List.mem_cons_self h2 rest)) c hc
    | ok lv2 =>
      rw [hph] at hc
      simp at hc
      rcases hc with hc | hc
      · exact processHost_no_create_for parseIp records local4 local6 domainId
          h h2 lv (hall h2 (List.mem_cons_self h2 rest)) c hc
      · exact ih (fun h3 hm => hall h3 (List.mem_cons_of_mem h2 hm)) lv2 c hc

/-! ### C3: update of a matched A record -/

/-- C3 (counterexample): the claim demands an update whenever *some* A record
matches the host and the discovered IPv4 differs; but the scan acts only on
the first matching record.  Here an AAAA record (whose target equals the
discovered IPv6 address) precedes the matching A record whose target
`1.1.1.1` differs from the discovered IPv4 `2.2.2.2`; the pass completes
normally without any update or create call. -/
theorem c3_counterexample :
    (matchesHost ⟨11, "www", "A", "1.1.1.1"⟩ "www" = true ∧
     sampleParse "1.1.1.1" = some ⟨4, "1.1.1.1"⟩ ∧
     get_ip sampleParse 4 (Except.ok "2.2.2.2") =
       Except.ok (some ⟨4, "2.2.2.2"⟩) ∧
     (⟨4, "2.2.2.2"⟩ : IpAddr) ≠ ⟨4, "1.1.1.1"⟩) ∧
    update_dns sampleParse [⟨1, "example.com"⟩]
      [⟨10, "www", "AAAA", "::1"⟩, ⟨11, "www", "A", "1.1.1.1"⟩]
      (Except.ok "2.2.2.2") (Except.ok "::1") "example.com" "www" =
    ([Call.getDomains, Call.discover 4, Call.discover 6, Call.getRecords 1],
     Outcome.normal) := by decide

theorem processHost_A_update (parseIp : String → Option IpAddr)
    (records : List DomainRecord) (local6 : Option IpAddr) (lv : LocalVar)
    (domainId : Nat) (h : String) (a4 : IpAddr) (r : DomainRecord)
    (rip : IpAddr)
    (hfm : findMatch records h = some r)
    (hA : r.rtype = "A")
    (hparse : parseIp r.target = some rip)
    (hdiff : a4 ≠ rip) :
    processHost parseIp records (some a4) local6 lv domainId h =
      ([Call.getRecords domainId, Call.update domainId r.id a4],
       Except.ok (some (some a4))) := by
  have hal : assignLocal (some a4) local6 lv r.rtype = some (some a4) := by
    simp [assignLocal, hA]
  simp [processHost, hfm, processRecord, hparse, hal, hdiff]

theorem processHosts_mem_update (parseIp : String → Option IpAddr)
    (records : List DomainRecord) (local6 : Option IpAddr) (domainId : Nat)
    (h : String) (a4 : IpAddr) (r : DomainRecord) (rip : IpAddr)
    (hfm : findMatch records h = some r)
    (hA : r.rtype = "A")
    (hparse : parseIp r.target = some rip)
    (hdiff : a4 ≠ rip) :
    ∀ (hosts : List String) (lv : LocalVar),
      h ∈ hosts →
      (processHosts parseIp records (some a4) local6 domainId lv hosts).2 =
        Except.ok () →
      Call.update domainId r.id a4 ∈
        (processHosts parseIp records (some a4) local6 domainId lv hosts).1 := by
  intro hosts
  induction hosts with
  | nil =>
    intro lv hm
    simp at hm
  | cons h2 rest ih =>
    intro lv hm hok
    rcases List.mem_cons.mp hm with he | hm2
    · subst he
      have hE := processHost_A_update parseIp records local6 lv domainId h a4
        r rip hfm hA hparse hdiff
      simp only [processHosts, hE]
      simp
    · cases hph : (processHost parseIp records (some a4) local6 lv domainId h2).2 with
      | error e =>
        unfold processHosts at hok
        rw [hph] at hok
        simp at hok
      | ok lv2 =>
        unfold processHosts at hok ⊢
        rw [hph] at hok ⊢
        simp at hok ⊢
        exact Or.inr (ih lv2 hm2 hok)

/-- C3 (amended): when the *first* record matching the host token has type A
and the discovered IPv4 address differs from that record's parsed target, a
normally-completing pass issues the update call with the new target for that
record and issues no create call carrying that host token. -/
theorem c3_first_match_update (parseIp : String → Option IpAddr)
    (domains : List DomainObj) (records : List DomainRecord)
    (resp4 resp6 : Except Unit String) (domain host h : String)
    (domainId : Nat) (a4 : IpAddr) (local6 : Option IpAddr)
    (r : DomainRecord) (rip : IpAddr)
    (hdid : findDomainId domains domain = some domainId)
    (h4 : get_ip parseIp 4 resp4 = Except.ok (some a4))
    (h6 : get_ip parseIp 6 resp6 = Except.ok local6)
    (hmem : h ∈ pySplit ',' host)
    (hfm : findMatch records h = some r)
    (hA : r.rtype = "A")
    (hparse : parseIp r.target = some rip)
    (hdiff : a4 ≠ rip)
    (hnorm : (update_dns parseIp domains records resp4 resp6 domain host).2 =
      Outcome.normal) :
    Call.update domainId r.id a4 ∈
        (update_dns parseIp domains records resp4 resp6 domain host).1 ∧
    ∀ c ∈ (update_dns parseIp domains records resp4 resp6 domain host).1,
      Call.isCreateFor h c = false := by
  unfold update_dns at hnorm ⊢
  rw [hdid, h4, h6] at hnorm ⊢
  simp only [] at hnorm ⊢
  have hok : (processHosts parseIp records (some a4) local6 domainId none
      (pySplit ',' host)).2 = Except.ok () := outcomeOf_normal _ hnorm
  constructor
  · simp only [List.mem_cons]
    exact Or.inr (Or.inr (Or.inr (processHosts_mem_update parseIp records
      local6 domainId h a4 r rip hfm hA hparse hdiff (pySplit ',' host) none
      hmem hok)))
  · intro c hc
    simp only [List.mem_cons] at hc
    rcases hc with hc | hc | hc | hc
    · subst hc; rfl
    · subst hc; rfl
    · subst hc; rfl
    · refine processHosts_no_create_of parseIp records (some a4) local6
        domainId h (pySplit ',' host) ?_ none c hc
      intro h2 hm2
      by_cases he : h2 = h
      · subst he
        exact Or.inr (by rw [hfm]; rfl)
      · exact Or.inl he

/-- C3 witness: host `www`, first matching record is the A record
`1.1.1.1`, discovered IPv4 `2.2.2.2` — the pass updates it and creates
nothing for `www`. -/
theorem c3_first_match_update_witness :
    Call.update 1 10 ⟨4, "2.2.2.2"⟩ ∈
      (update_dns sampleParse [⟨1, "example.com"⟩]
        [⟨10, "www", "A", "1.1.1.1"⟩] (Except.ok "2.2.2.2") (Except.error ())
        "example.com" "www").1 ∧
    ((update_dns sampleParse [⟨1, "example.com"⟩]
        [⟨10, "www", "A", "1.1.1.1"⟩] (Except.ok "2.2.2.2") (Except.error ())
        "example.com" "www").1.all
      (fun c => !Call.isCreateFor "www" c)) = true := by
  have hres := c3_first_match_update sampleParse [⟨1, "example.com"⟩]
    [⟨10, "www", "A", "1.1.1.1"⟩] (Except.ok "2.2.2.2") (Except.error ())
    "example.com" "www" "www" 1 ⟨4, "2.2.2.2"⟩ none
    ⟨10, "www", "A", "1.1.1.1"⟩ ⟨4, "1.1.1.1"⟩ (by decide) (by decide)
    (by decide) (by decide) (by decide) (by decide) (by decide) (by decide)
    (by decide)
  refine ⟨hres.1, ?_⟩
  rw [List.all_eq_true]
  intro c hc
  simp [hres.2 c hc]

/-! ### C4: creation of both records for an unmatched host -/

theorem processHost_create_both (parseIp : String → Option IpAddr)
    (records : List DomainRecord) (lv : LocalVar) (domainId : Nat)
    (h : String) (a4 a6 : IpAddr)
    (hfm : findMatch records h = none)
    (hne : pyStrip h ≠ "") (hna : pyStrip h ≠ "@") :
    processHost parseIp records (some a4) (some a6) lv domainId h =
      ([Call.getRecords domainId, Call.create domainId h "A" a4,
        Call.create domainId h "AAAA" a6], Except.ok lv) := by
  simp [processHost, hfm, hne, hna]

theorem processHosts_c4_filter (parseIp : String → Option IpAddr)
    (records : List DomainRecord) (domainId : Nat) (h : String)
    (a4 a6 : IpAddr)
    (hfm : findMatch records h = none)
    (hne : pyStrip h ≠ "") (hna : pyStrip h ≠ "@") :
    ∀ (hosts : List String) (lv : LocalVar),
      hosts.count h = 1 →
      (processHosts parseIp records (some a4) (some a6) domainId lv hosts).2 =
        Except.ok () →
      (processHosts parseIp records (some a4) (some a6) domainId
          lv hosts).1.filter (Call.isCreateFor h) =
        [Call.create domainId h "A" a4, Call.create domainId h "AAAA" a6] := by
  intro hosts
  induction hosts with
  | nil =>
    intro lv hcount
    simp at hcount
  | cons h2 rest ih =>
    intro lv hcount hok
    by_cases he : h2 = h
    · subst he
      have hE := processHost_create_both parseIp records lv domainId h2 a4 a6
        hfm hne hna
      have hz : rest.count h2 = 0 := by
        rw [List.count_cons_self] at hcount
        omega
      have hrest : ∀ c ∈ (processHosts parseIp records (some a4) (some a6)
          domainId lv rest).1, Call.isCreateFor h2 c = false := by
        intro c hc
        refine processHosts_no_create_of parseIp records (some a4) (some a6)
          domainId h2 rest ?_ lv c hc
        intro h3 hm3
        exact Or.inl (fun hh => (List.count_eq_zero.mp hz) (hh ▸ hm3))
      have hnil : List.filter (Call.isCreateFor h2)
          (processHosts parseIp records (some a4) (some a6) domainId
            lv rest).1 = [] :=
        List.filter_eq_nil_iff.mpr (fun c hc => by simp [hrest c hc])
      simp only [processHosts, hE]
      rw [List.filter_append, hnil, List.append_nil]
      simp [Call.isCreateFor]
    · have hcount2 : rest.count h = 1 := by
        rw [List.count_cons_of_ne (fun hh => he hh.symm)] at hcount
        · exact hcount
      cases hph : (processHost parseIp records (some a4) (some a6) lv
          domainId h2).2 with
      | error e =>
        unfold processHosts at hok
        rw [hph] at hok
        simp at hok
      | ok lv2 =>
        have hnil2 : List.filter (Call.isCreateFor h)
            (processHost parseIp records (some a4) (some a6) lv
              domainId h2).1 = [] :=
          List.filter_eq_nil_iff.mpr (fun c hc => by
            simp [processHost_no_create_for parseIp records (some a4)
              (some a6) domainId h h2 lv (Or.inl he) c hc])
        unfold processHosts at hok ⊢
        rw [hph] at hok ⊢
        simp only [] at hok ⊢
        rw [List.filter_append, hnil2, List.nil_append]
        exact ih lv2 hcount2 hok

/-- C4: for a host token that strips to something non-empty and other than
`"@"`, occurs once in the host list, and matches no record, a
normally-completing pass with both addresses discovered issues exactly two
create calls carrying that token: an A record with the IPv4 address and an
AAAA record with the IPv6 address. -/
theorem c4_creates_both (parseIp : String → Option IpAddr)
    (domains : List DomainObj) (records : List DomainRecord)
    (resp4 resp6 : Except Unit String) (domain host h : String)
    (domainId : Nat) (a4 a6 : IpAddr)
    (hdid : findDomainId domains domain = some domainId)
    (h4 : get_ip parseIp 4 resp4 = Except.ok (some a4))
    (h6 : get_ip parseIp 6 resp6 = Except.ok (some a6))
    (hcount : (pySplit ',' host).count h = 1)
    (hfm : findMatch records h = none)
    (hne : pyStrip h ≠ "") (hna : pyStrip h ≠ "@")
    (hnorm : (update_dns parseIp domains records resp4 resp6 domain host).2 =
      Outcome.normal) :
    (update_dns parseIp domains records resp4 resp6 domain host).1.filter
        (Call.isCreateFor h) =
      [Call.create domainId h "A" a4, Call.create domainId h "AAAA" a6] := by
  unfold update_dns at hnorm ⊢
  rw [hdid, h4, h6] at hnorm ⊢
  simp only [] at hnorm ⊢
  have hok : (processHosts parseIp records (some a4) (some a6) domainId none
      (pySplit ',' host)).2 = Except.ok () := outcomeOf_normal _ hnorm
  simp only [List.filter_cons]
  rw [processHosts_c4_filter parseIp records domainId h a4 a6 hfm hne hna
    (pySplit ',' host) none hcount hok]
  rfl

/-- C4 witness: host `www` with no records at all and both addresses
discovered — the filtered trace is exactly the A create and the AAAA
create. -/
theorem c4_creates_both_witness :
    (update_dns sampleParse [⟨1, "example.com"⟩] [] (Except.ok "2.2.2.2")
        (Except.ok "::1") "example.com" "www").1.filter
      (Call.isCreateFor "www") =
    [Call.create 1 "www" "A" ⟨4, "2.2.2.2"⟩,
     Call.create 1 "www" "AAAA" ⟨6, "::1"⟩] :=
  c4_creates_both sampleParse [⟨1, "example.com"⟩] [] (Except.ok "2.2.2.2")
    (Except.ok "::1") "example.com" "www" "www" 1 ⟨4, "2.2.2.2"⟩ ⟨6, "::1"⟩
    (by decide) (by decide) (by decide) (by decide) (by decide) (by decide)
    (by decide) (by decide)

/-! ### C9: idempotence when every host's record is already correct -/

/-- A host token whose first matching record is of type A or AAAA, has a
parseable target, and that target equals the discovered address of the
record's family. -/
def RecordCorrect (parseIp : String → Option IpAddr)
    (records : List DomainRecord) (local4 local6 : Option IpAddr)
    (h : String) : Prop :=
  ∃ r, findMatch records h = some r ∧ ∃ a, parseIp r.target = some a ∧
    ((r.rtype = "A" ∧ local4 = some a) ∨ (r.rtype = "AAAA" ∧ local6 = some a))

theorem processHost_correct (parseIp : String → Option IpAddr)
    (records : List DomainRecord) (local4 local6 : Option IpAddr)
    (domainId : Nat) (h : String) (lv : LocalVar)
    (hc : RecordCorrect parseIp records local4 local6 h) :
    ∃ a, processHost parseIp records local4 local6 lv domainId h =
      ([Call.getRecords domainId], Except.ok (some (some a))) := by
  obtain ⟨r, hfm, a, hp, hcase⟩ := hc
  refine ⟨a, ?_⟩
  rcases hcase with ⟨hA, ha4⟩ | ⟨hA6, ha6⟩
  · have hal : assignLocal local4 local6 lv r.rtype = some (some a) := by
      simp [assignLocal, hA, ha4]
    simp [processHost, hfm, processRecord, hp, hal]
  · have hal : assignLocal local4 local6 lv r.rtype = some (some a) := by
      simp [assignLocal, hA6, ha6]
    simp [processHost, hfm, processRecord, hp, hal]

theorem processHosts_correct (parseIp : String → Option IpAddr)
    (records : List DomainRecord) (local4 local6 : Option IpAddr)
    (domainId : Nat) :
    ∀ (hosts : List String),
      (∀ h ∈ hosts, RecordCorrect parseIp records local4 local6 h) →
      ∀ lv : LocalVar,
        (processHosts parseIp records local4 local6 domainId lv hosts).2 =
            Except.ok () ∧
        ∀ c ∈ (processHosts parseIp records local4 local6 domainId
            lv hosts).1,
          Call.isUpdate c = false ∧ Call.isCreate c = false := by
  intro hosts
  induction hosts with
  | nil =>
    intro hall lv
    exact ⟨rfl, by simp [processHosts]⟩
  | cons h rest ih =>
    intro hall lv
    obtain ⟨a, hE⟩ := processHost_correct parseIp records local4 local6
      domainId h lv (hall h (List.mem_cons_self h rest))
    have hrest := ih (fun h2 hm => hall h2 (List.mem_cons_of_mem h hm))
      (some (some a))
    simp only [processHosts, hE]
    refine ⟨hrest.1, ?_⟩
    intro c hc
    simp at hc
    rcases hc with hc | hc
    · subst hc
      exact ⟨rfl, rfl⟩
    · exact hrest.2 c hc

/-- C9: if every host token's first matching record is of the A/AAAA family
with a target already equal to the discovered address of that family, the
pass completes normally and issues zero update calls and zero create
calls. -/
theorem c9_idempotent (parseIp : String → Option IpAddr)
    (domains : List DomainObj) (records : List DomainRecord)
    (resp4 resp6 : Except Unit String) (domain host : String)
    (domainId : Nat) (local4 local6 : Option IpAddr)
    (hdid : findDomainId domains domain = some domainId)
    (h4 : get_ip parseIp 4 resp4 = Except.ok local4)
    (h6 : get_ip parseIp 6 resp6 = Except.ok local6)
    (hall : ∀ h ∈ pySplit ',' host,
      RecordCorrect parseIp records local4 local6 h) :
    (update_dns parseIp domains records resp4 resp6 domain host).2 =
        Outcome.normal ∧
    ∀ c ∈ (update_dns parseIp domains records resp4 resp6 domain host).1,
      Call.isUpdate c = false ∧ Call.isCreate c = false := by
  have hmain := processHosts_correct parseIp records local4 local6 domainId
    (pySplit ',' host) hall none
  unfold update_dns
  rw [hdid, h4, h6]
  simp only []
  constructor
  · rw [hmain.1]
    rfl
  · intro c hc
    simp only [List.mem_cons] at hc
    rcases hc with hc | hc | hc | hc
    · subst hc; exact ⟨rfl, rfl⟩
    · subst hc; exact ⟨rfl, rfl⟩
    · subst hc; exact ⟨rfl, rfl⟩
    · exact hmain.2 c hc

/-- C9 witness: the bare-domain record already holds the discovered IPv4
address and IPv6 is absent — the pass is a no-op (record listing only). -/
theorem c9_idempotent_witness :
    (update_dns sampleParse [⟨1, "example.com"⟩] [⟨10, "", "A", "1.1.1.1"⟩]
        (Except.ok "1.1.1.1") (Except.error ()) "example.com" "@").2 =
      Outcome.normal ∧
    ((update_dns sampleParse [⟨1, "example.com"⟩] [⟨10, "", "A", "1.1.1.1"⟩]
        (Except.ok "1.1.1.1") (Except.error ()) "example.com" "@").1.all
      (fun c => !Call.isUpdate c && !Call.isCreate c)) = true := by
  have hres := c9_idempotent sampleParse [⟨1, "example.com"⟩]
    [⟨10, "", "A", "1.1.1.1"⟩] (Except.ok "1.1.1.1") (Except.error ())
    "example.com" "@" 1 (some ⟨4, "1.1.1.1"⟩) none (by decide) (by decide)
    (by decide)
    (by
      intro h hm
      rw [show pySplit ',' "@" = ["@"] from by decide] at hm
      have hh : h = "@" := by
        simpa using hm
      subst hh
      exact ⟨⟨10, "", "A", "1.1.1.1"⟩, by decide, ⟨4, "1.1.1.1"⟩, by decide,
        Or.inl ⟨rfl, rfl⟩⟩)
  refine ⟨hres.1, ?_⟩
  rw [List.all_eq_true]
  intro c hc
  simp [(hres.2 c hc).1, (hres.2 c hc).2]

/-! ### C1 (continued): the two regimes for a non-A/AAAA first match -/

/-- Helper for C1, stale regime: when `local_ip` is already bound to an
address `lip` (from an A or AAAA match in an earlier host iteration) and the
current host's first matching record has a type that is neither A nor AAAA
but a parseable target differing from `lip`, lines 140–145 run for that
record too: an update call is issued *for the non-A/AAAA record* carrying the
stale address. -/
theorem processHost_stale (parseIp : String → Option IpAddr)
    (records : List DomainRecord) (local4 local6 : Option IpAddr)
    (lip : IpAddr) (domainId : Nat) (h : String) (r : DomainRecord)
    (rip : IpAddr)
    (hfm : findMatch records h = some r)
    (hA : r.rtype ≠ "A") (hAAAA : r.rtype ≠ "AAAA")
    (hparse : parseIp r.target = some rip)
    (hdiff : lip ≠ rip) :
    processHost parseIp records local4 local6 (some (some lip)) domainId h =
      ([Call.getRecords domainId, Call.update domainId r.id lip],
       Except.ok (some (some lip))) := by
  have hal : assignLocal local4 local6 (some (some lip)) r.rtype =
      some (some lip) := by
    simp [assignLocal, hA, hAAAA]
  simp [processHost, hfm, processRecord, hparse, hal, hdiff]

/-- C1 (amended): a first matching record whose type is neither A nor AAAA is
not cleanly ignored.  `local_ip` is assigned only in the A/AAAA branches, so:
(i) if no A or AAAA record was matched earlier in the pass — always the case
for the first host token — reading it raises `UnboundLocalError` and the pass
aborts right after the record listing, issuing no update for the record;
(ii) if an A or AAAA record was matched in an earlier host iteration, the
stale address from that match is compared against this record's target, and
when it differs an update call is issued for the non-A/AAAA record carrying
that stale (possibly wrong-family) address. -/
theorem c1_other_type_behavior :
    (∀ (parseIp : String → Option IpAddr) (domains : List DomainObj)
       (records : List DomainRecord) (resp4 resp6 : Except Unit String)
       (domain host h : String) (rest : List String) (domainId : Nat)
       (local4 local6 : Option IpAddr) (r : DomainRecord) (rip : IpAddr),
       findDomainId domains domain = some domainId →
       get_ip parseIp 4 resp4 = Except.ok local4 →
       get_ip parseIp 6 resp6 = Except.ok local6 →
       pySplit ',' host = h :: rest →
       findMatch records h = some r →
       r.rtype ≠ "A" → r.rtype ≠ "AAAA" →
       parseIp r.target = some rip →
       update_dns parseIp domains records resp4 resp6 domain host =
         ([Call.getDomains, Call.discover 4, Call.discover 6,
           Call.getRecords domainId], Outcome.raised PyErr.unboundLocal)) ∧
    (∀ (parseIp : String → Option IpAddr) (domains : List DomainObj)
       (records : List DomainRecord) (resp4 resp6 : Except Unit String)
       (domain host h1 h2 : String) (rest : List String) (domainId : Nat)
       (a4 : IpAddr) (local6 : Option IpAddr) (r1 r2 : DomainRecord)
       (rip1 rip2 : IpAddr),
       findDomainId domains domain = some domainId →
       get_ip parseIp 4 resp4 = Except.ok (some a4) →
       get_ip parseIp 6 resp6 = Except.ok local6 →
       pySplit ',' host = h1 :: h2 :: rest →
       findMatch records h1 = some r1 →
       r1.rtype = "A" →
       parseIp r1.target = some rip1 →
       a4 ≠ rip1 →
       findMatch records h2 = some r2 →
       r2.rtype ≠ "A" → r2.rtype ≠ "AAAA" →
       parseIp r2.target = some rip2 →
       a4 ≠ rip2 →
       Call.update domainId r2.id a4 ∈
         (update_dns parseIp domains records resp4 resp6 domain host).1) := by
  constructor
  · intro parseIp domains records resp4 resp6 domain host h rest domainId
      local4 local6 r rip hdid h4 h6 hsplit hfm hA hAAAA hparse
    exact c1_unbound_local parseIp domains records resp4 resp6 domain host h
      rest domainId local4 local6 r rip hdid h4 h6 hsplit hfm hA hAAAA hparse
  · intro parseIp domains records resp4 resp6 domain host h1 h2 rest domainId
      a4 local6 r1 r2 rip1 rip2 hdid h4 h6 hsplit hfm1 hA1 hp1 hd1 hfm2 hA2
      hAAAA2 hp2 hd2
    have hE1 := processHost_A_update parseIp records local6 none domainId h1
      a4 r1 rip1 hfm1 hA1 hp1 hd1
    have hE2 := processHost_stale parseIp records (some a4) local6 a4 domainId
      h2 r2 rip2 hfm2 hA2 hAAAA2 hp2 hd2
    unfold update_dns
    rw [hdid, h4, h6, hsplit]
    simp only [processHosts, hE1, hE2]
    simp

/-- C1 witness, both regimes: a TXT record as the first match of the pass
aborts with the unbound-variable error; with a preceding host whose A record
differs from the discovered IPv4, the MX record of the next host receives an
update carrying the stale IPv4 address, and the pass continues. -/
theorem c1_other_type_behavior_witness :
    update_dns sampleParse [⟨3, "mysite.org"⟩]
      [⟨7, "blog", "TXT", "2.2.2.2"⟩] (Except.ok "1.1.1.1") (Except.error ())
      "mysite.org" "blog" =
    ([Call.getDomains, Call.discover 4, Call.discover 6, Call.getRecords 3],
     Outcome.raised PyErr.unboundLocal) ∧
    Call.update 1 20 ⟨4, "2.2.2.2"⟩ ∈
      (update_dns sampleParse [⟨1, "example.com"⟩]
        [⟨10, "a", "A", "1.1.1.1"⟩, ⟨20, "b", "MX", "1.2.3.4"⟩]
        (Except.ok "2.2.2.2") (Except.error ()) "example.com" "a,b").1 :=
  ⟨c1_other_type_behavior.1 sampleParse [⟨3, "mysite.org"⟩]
     [⟨7, "blog", "TXT", "2.2.2.2"⟩] (Except.ok "1.1.1.1") (Except.error ())
     "mysite.org" "blog" "blog" [] 3 (some ⟨4, "1.1.1.1"⟩) none
     ⟨7, "blog", "TXT", "2.2.2.2"⟩ ⟨4, "2.2.2.2"⟩ (by decide) (by decide)
     (by decide) (by decide) (by decide) (by decide) (by decide) (by decide),
   c1_other_type_behavior.2 sampleParse [⟨1, "example.com"⟩]
     [⟨10, "a", "A", "1.1.1.1"⟩, ⟨20, "b", "MX", "1.2.3.4"⟩]
     (Except.ok "2.2.2.2") (Except.error ()) "example.com" "a,b" "a" "b" [] 1
     ⟨4, "2.2.2.2"⟩ none ⟨10, "a", "A", "1.1.1.1"⟩ ⟨20, "b", "MX", "1.2.3.4"⟩
     ⟨4, "1.1.1.1"⟩ ⟨4, "1.2.3.4"⟩ (by decide) (by decide) (by decide)
     (by decide) (by decide) (by decide) (by decide) (by decide) (by decide)
     (by decide) (by decide) (by decide) (by decide)⟩

/- The specification's concrete scenario: domain `example.com`, hosts
`@,www`, one bare-domain A record `1.1.1.1`, discovered IPv4 `2.2.2.2`,
IPv6 absent: one update and one A create, no AAAA calls. -/
example :
    update_dns sampleParse [⟨1, "example.com"⟩] [⟨10, "", "A", "1.1.1.1"⟩]
      (Except.ok "2.2.2.2") (Except.error ()) "example.com" "@,www" =
    ([Call.getDomains, Call.discover 4, Call.discover 6, Call.getRecords 1,
      Call.update 1 10 ⟨4, "2.2.2.2"⟩, Call.getRecords 1,
      Call.create 1 "www" "A" ⟨4, "2.2.2.2"⟩],
     Outcome.normal) := by decide
